import Mathlib

/-!
Shallow embedding of the model-load-optimizer routing engine.

The embedding follows the TypeScript source:
* `src/ollama-client.ts` — the Ollama HTTP client cache (`OllamaClient`):
  `checkHealth`, `getModelStatus`, `isModelLoaded`.
* `src/router.ts` (shipped unnamed) — the `ModelRouter` class:
  `refreshHealth`, `selectModel`, `isGpuOverloaded`, `isSimpleRequest`,
  `decidePrimary`, `decideSidecar`, `decideFallback`, the constructor state.
* `src/config.ts` — `PluginConfig`.

Modelling conventions: JavaScript `number` fields holding counts, sizes and
timestamps become `Nat`; the GPU-memory threshold and the VRAM ratio use `ℚ`
(the source compares `usedMB / totalMB >= threshold` on IEEE doubles; the
rational model keeps the same comparison shape). `undefined` and `null`
become `none`. Asynchronous effects are made explicit: the backend responses,
the probe outputs and the clock reading that a call would obtain are passed in
as arguments, and `selectModel` returns the number of `refreshHealth`
executions it performed so that refresh behaviour is observable.
-/

namespace MLO

/-- Shared optional `details` block of pulled and running model records. -/
structure ModelDetails where
  parameter_size : Option String
  quantization_level : Option String
  family : Option String
deriving Repr, DecidableEq

/-- The `OllamaModel` from `ollama-client.ts` (fields the engine reads). -/
structure OllamaModel where
  name : String
  model : String
  size : Nat
  details : Option ModelDetails
deriving Repr, DecidableEq

/-- The `OllamaRunningModel` from `ollama-client.ts` (fields the engine reads). -/
structure OllamaRunningModel where
  name : String
  model : String
  size : Nat
  size_vram : Nat
  expires_at : String
  details : Option ModelDetails
deriving Repr, DecidableEq

/-- The `ModelStatus` from `ollama-client.ts`. `expiresAt` keeps the raw
timestamp string the source wraps in a `Date`. -/
structure ModelStatus where
  name : String
  pulled : Bool
  loaded : Bool
  sizeBytes : Nat
  vramBytes : Nat
  expiresAt : Option String
  parameterSize : Option String
  quantization : Option String
  family : Option String
deriving Repr, DecidableEq

/-- The `OllamaHealth` from `ollama-client.ts`: the cached snapshot. -/
structure OllamaHealth where
  reachable : Bool
  version : Option String
  pulledModels : List OllamaModel
  runningModels : List OllamaRunningModel
  lastChecked : Nat
deriving Repr, DecidableEq

/-- The initial `_health` value of a fresh `OllamaClient`. -/
def initialHealth : OllamaHealth :=
  { reachable := false
    version := none
    pulledModels := []
    runningModels := []
    lastChecked := 0 }

/-- Outcome of the three backend calls one `checkHealth` run performs:
`none` in an outer position is any failure of that call (network error,
non-2xx, timeout); the inner `Option` on the catalog calls is the `models`
field possibly missing from the JSON body (the source applies `?? []`). -/
structure BackendResponses where
  versionResp : Option String
  tagsResp : Option (Option (List OllamaModel))
  psResp : Option (Option (List OllamaRunningModel))
deriving Repr, DecidableEq

/-- The `OllamaClient.checkHealth`: on success of all three calls the snapshot is
rebuilt from the responses; if any call throws, the catch block keeps the
previous `pulledModels`, zeroes `runningModels`, drops `version` and marks
unreachable. Returns the new snapshot either way. -/
def checkHealth (resp : BackendResponses) (now : Nat) (h : OllamaHealth) :
    OllamaHealth :=
  match resp.versionResp, resp.tagsResp, resp.psResp with
  | some v, some tags, some ps =>
      { reachable := true
        version := some v
        pulledModels := tags.getD []
        runningModels := ps.getD []
        lastChecked := now }
  | _, _, _ =>
      { reachable := false
        version := none
        pulledModels := h.pulledModels
        runningModels := []
        lastChecked := now }

/-- The two-field name match used by every catalog lookup in
`ollama-client.ts`: `m.name === modelName || m.model === modelName`. -/
def pulledMatch (modelName : String) (m : OllamaModel) : Bool :=
  m.name == modelName || m.model == modelName

/-- Same match on running-model records. -/
def runningMatch (modelName : String) (m : OllamaRunningModel) : Bool :=
  m.name == modelName || m.model == modelName

/-- The `OllamaClient.isModelLoaded`. -/
def isModelLoaded (h : OllamaHealth) (modelName : String) : Bool :=
  h.runningModels.any (runningMatch modelName)

/-- The `OllamaClient.getModelStatus`: derives a `ModelStatus` from the cached
snapshot; an unmatched name yields the all-false/zero record. -/
def getModelStatus (h : OllamaHealth) (modelName : String) : ModelStatus :=
  let pulled := h.pulledModels.find? (pulledMatch modelName)
  let running := h.runningModels.find? (runningMatch modelName)
  let details :=
    (pulled.bind OllamaModel.details).orElse
      (fun _ => running.bind OllamaRunningModel.details)
  { name := modelName
    pulled := pulled.isSome
    loaded := running.isSome
    sizeBytes :=
      match pulled with
      | some p => p.size
      | none => match running with
        | some r => r.size
        | none => 0
    vramBytes :=
      match running with
      | some r => r.size_vram
      | none => 0
    expiresAt :=
      match running with
      | some r => if r.expires_at = "" then none else some r.expires_at
      | none => none
    parameterSize := details.bind ModelDetails.parameter_size
    quantization := details.bind ModelDetails.quantization_level
    family := details.bind ModelDetails.family }

/-- The `PluginConfig` from `config.ts`. -/
structure PluginConfig where
  ollamaHost : String
  primaryModel : String
  sidecarModel : String
  fallbackModel : Option String
  keepAliveMinutes : Nat
  gpuMemoryThreshold : ℚ
  healthCheckIntervalSec : Nat
  preloadOnStart : Bool
  autoRoute : Bool
  dashboardEnabled : Bool
deriving Repr, DecidableEq

/-- The `source` tag of a routing decision. -/
inductive Source where
  | primary
  | sidecar
  | fallback
deriving Repr, DecidableEq

/-- A VRAM reading, `{usedMB, totalMB}` from `gpu-detect.ts`. -/
structure VramUsage where
  usedMB : Nat
  totalMB : Nat
deriving Repr, DecidableEq

/-- The `RouteDecision` from `router.ts`; optional fields absent from a branch
literal are `none`. -/
structure RouteDecision where
  model : String
  reason : String
  source : Source
  gpuUtilization : Option ℚ
  vramUsedMB : Option Nat
  vramTotalMB : Option Nat
  modelLoaded : Bool
  timestamp : Nat
deriving Repr, DecidableEq

/-- The `RouterState` from `router.ts`. -/
structure RouterState where
  lastDecision : Option RouteDecision
  primaryStatus : ModelStatus
  sidecarStatus : ModelStatus
  gpuUtilization : Option ℚ
  vramUsage : Option VramUsage
  ollamaReachable : Bool
  lastHealthCheck : Nat
  decisionsCount : Nat
  primarySelections : Nat
  sidecarSelections : Nat
  fallbackSelections : Nat
deriving Repr, DecidableEq

/-- The per-model status the `ModelRouter` constructor seeds. -/
def initialModelStatus (modelName : String) : ModelStatus :=
  { name := modelName
    pulled := false
    loaded := false
    sizeBytes := 0
    vramBytes := 0
    expiresAt := none
    parameterSize := none
    quantization := none
    family := none }

/-- The state built by the `ModelRouter` constructor. -/
def initialState (cfg : PluginConfig) : RouterState :=
  { lastDecision := none
    primaryStatus := initialModelStatus cfg.primaryModel
    sidecarStatus := initialModelStatus cfg.sidecarModel
    gpuUtilization := none
    vramUsage := none
    ollamaReachable := false
    lastHealthCheck := 0
    decisionsCount := 0
    primarySelections := 0
    sidecarSelections := 0
    fallbackSelections := 0 }

/-- The optional `context` argument of `selectModel`. -/
structure SelectContext where
  messageLength : Option Nat
  conversationDepth : Option Nat
  forceModel : Option String
deriving Repr, DecidableEq

/-- The `ModelRouter.refreshHealth`: runs the client health check, then updates
reachability, the check timestamp, both model statuses (from the fresh
snapshot) and the GPU probes. Returns the new client snapshot and router
state. `gpuUtil` and `vram` are the probe outputs this run would observe. -/
def refreshHealth (cfg : PluginConfig) (resp : BackendResponses)
    (gpuUtil : Option ℚ) (vram : Option VramUsage) (now : Nat)
    (ch : OllamaHealth) (s : RouterState) : OllamaHealth × RouterState :=
  let ch2 := checkHealth resp now ch
  (ch2,
    { s with
      ollamaReachable := ch2.reachable
      lastHealthCheck := now
      primaryStatus := getModelStatus ch2 cfg.primaryModel
      sidecarStatus := getModelStatus ch2 cfg.sidecarModel
      gpuUtilization := gpuUtil
      vramUsage := vram })

/-- The `ModelRouter.isGpuOverloaded`: no VRAM reading means not overloaded;
otherwise compare the used/total ratio against the configured threshold. -/
def isGpuOverloaded (cfg : PluginConfig) (s : RouterState) : Bool :=
  match s.vramUsage with
  | none => false
  | some v =>
      decide ((v.usedMB : ℚ) / (v.totalMB : ℚ) ≥ cfg.gpuMemoryThreshold)

/-- The `ModelRouter.isSimpleRequest`: an absent context object is not simple;
otherwise both hint fields default to 0 and are compared to 200 and 3. -/
def isSimpleRequest (context : Option SelectContext) : Bool :=
  match context with
  | none => false
  | some c =>
      decide (c.messageLength.getD 0 < 200) &&
        decide (c.conversationDepth.getD 0 < 3)

/-- The truthiness test `context?.forceModel` guarding the forced-override
branch: absent context, absent field and the empty string are all falsy. -/
def forcedModel (context : Option SelectContext) : Option String :=
  match context with
  | none => none
  | some c =>
      match c.forceModel with
      | none => none
      | some f => if f = "" then none else some f

/-- Models the `(threshold * 100).toFixed(0)` interpolation in the overload
reason string (rounding convention of `round` on `ℚ`). -/
def toFixed0 (q : ℚ) : String :=
  toString (round q)

/-- The `ModelRouter.decidePrimary`. -/
def decidePrimary (cfg : PluginConfig) (s : RouterState) (reason : String)
    (now : Nat) : RouteDecision × RouterState :=
  let s1 :=
    { s with
      decisionsCount := s.decisionsCount + 1
      primarySelections := s.primarySelections + 1 }
  let decision : RouteDecision :=
    { model := "ollama/" ++ cfg.primaryModel
      reason := reason
      source := Source.primary
      gpuUtilization := s.gpuUtilization
      vramUsedMB := s.vramUsage.map VramUsage.usedMB
      vramTotalMB := s.vramUsage.map VramUsage.totalMB
      modelLoaded := s.primaryStatus.loaded
      timestamp := now }
  (decision, { s1 with lastDecision := some decision })

/-- The `ModelRouter.decideSidecar`. -/
def decideSidecar (cfg : PluginConfig) (s : RouterState) (reason : String)
    (now : Nat) : RouteDecision × RouterState :=
  let s1 :=
    { s with
      decisionsCount := s.decisionsCount + 1
      sidecarSelections := s.sidecarSelections + 1 }
  let decision : RouteDecision :=
    { model := "ollama/" ++ cfg.sidecarModel
      reason := reason
      source := Source.sidecar
      gpuUtilization := s.gpuUtilization
      vramUsedMB := s.vramUsage.map VramUsage.usedMB
      vramTotalMB := s.vramUsage.map VramUsage.totalMB
      modelLoaded := s.sidecarStatus.loaded
      timestamp := now }
  (decision, { s1 with lastDecision := some decision })

/-- The `ModelRouter.decideFallback`: the decision literal carries no VRAM
fields, a `false` loaded flag and the configured or default remote model. -/
def decideFallback (cfg : PluginConfig) (s : RouterState) (reason : String)
    (now : Nat) : RouteDecision × RouterState :=
  let s1 :=
    { s with
      decisionsCount := s.decisionsCount + 1
      fallbackSelections := s.fallbackSelections + 1 }
  let decision : RouteDecision :=
    { model := cfg.fallbackModel.getD "anthropic/claude-sonnet-4-5"
      reason := reason
      source := Source.fallback
      gpuUtilization := s.gpuUtilization
      vramUsedMB := none
      vramTotalMB := none
      modelLoaded := false
      timestamp := now }
  (decision, { s1 with lastDecision := some decision })

/-- The reason string of the sidecar overload/simple branch. -/
def sidecarBranchReason (cfg : PluginConfig) (s : RouterState) : String :=
  if isGpuOverloaded cfg s then
    "GPU VRAM above " ++ toFixed0 (cfg.gpuMemoryThreshold * 100) ++
      "% - routing to CPU sidecar"
  else
    "Simple request routed to fast CPU sidecar"

/-- Lines 164-211 of `selectModel`: the seven-branch policy cascade run
after the forced-override, staleness and reachability steps. -/
def decisionCascade (cfg : PluginConfig) (s : RouterState)
    (context : Option SelectContext) (now : Nat) :
    RouteDecision × RouterState :=
  let primaryPulled := s.primaryStatus.pulled
  let sidecarPulled := s.sidecarStatus.pulled
  let primaryLoaded := s.primaryStatus.loaded
  let sidecarLoaded := s.sidecarStatus.loaded
  let gpuOverloaded := isGpuOverloaded cfg s
  let simple := isSimpleRequest context
  if primaryPulled && primaryLoaded && !gpuOverloaded then
    decidePrimary cfg s "Primary model loaded and GPU has capacity" now
  else if primaryPulled && !gpuOverloaded && !simple then
    decidePrimary cfg s
      "Primary model available, loading for complex request" now
  else if sidecarPulled && (gpuOverloaded || simple) then
    decideSidecar cfg s (sidecarBranchReason cfg s) now
  else if sidecarPulled && sidecarLoaded then
    decideSidecar cfg s "Sidecar already loaded - fast response path" now
  else if primaryPulled then
    decidePrimary cfg s "Primary model available with partial GPU offload" now
  else if sidecarPulled then
    decideSidecar cfg s "Only sidecar model available" now
  else
    decideFallback cfg s "No local models available" now

/-- What a `selectModel` call would observe from its environment: the clock
reading, and the backend responses and probe outputs a staleness-triggered
`refreshHealth` would get. -/
structure SelectEnv where
  now : Nat
  resp : BackendResponses
  gpuUtil : Option ℚ
  vram : Option VramUsage
deriving Repr, DecidableEq

/-- The staleness test of `selectModel`:
`Date.now() - lastHealthCheck > intervalSec * 1000 * 2` (on `ℤ`, as the
source subtraction is on plain numbers). -/
def staleNeeded (cfg : PluginConfig) (s : RouterState) (now : Nat) : Bool :=
  decide ((now : ℤ) - (s.lastHealthCheck : ℤ) >
    (cfg.healthCheckIntervalSec : ℤ) * 1000 * 2)

/-- The staleness guard step of `selectModel`: run `refreshHealth` when the
last check is too old. The third component counts refresh executions. -/
def afterStaleness (cfg : PluginConfig) (env : SelectEnv)
    (ch : OllamaHealth) (s : RouterState) :
    OllamaHealth × RouterState × Nat :=
  if staleNeeded cfg s env.now then
    let r := refreshHealth cfg env.resp env.gpuUtil env.vram env.now ch s
    (r.1, r.2, 1)
  else
    (ch, s, 0)

/-- Result of one `selectModel` call: the decision, the router state and
client snapshot after the call, and how many `refreshHealth` runs the call
performed. -/
structure SelectResult where
  decision : RouteDecision
  state : RouterState
  clientHealth : OllamaHealth
  refreshCount : Nat
deriving Repr, DecidableEq

/-- The `ModelRouter.selectModel`: forced override first (updating only
`lastDecision`), then the staleness guard, the reachability check, and the
policy cascade. -/
def selectModel (cfg : PluginConfig) (ch : OllamaHealth) (s : RouterState)
    (env : SelectEnv) (context : Option SelectContext) : SelectResult :=
  match forcedModel context with
  | some f =>
      let decision : RouteDecision :=
        { model := f
          reason := "Forced model selection"
          source := Source.primary
          gpuUtilization := none
          vramUsedMB := none
          vramTotalMB := none
          modelLoaded := isModelLoaded ch f
          timestamp := env.now }
      { decision := decision
        state := { s with lastDecision := some decision }
        clientHealth := ch
        refreshCount := 0 }
  | none =>
      let step := afterStaleness cfg env ch s
      let ch1 := step.1
      let s1 := step.2.1
      let rc := step.2.2
      if !s1.ollamaReachable then
        let d := decideFallback cfg s1 "Ollama is unreachable" env.now
        { decision := d.1, state := d.2, clientHealth := ch1,
          refreshCount := rc }
      else
        let d := decisionCascade cfg s1 context env.now
        { decision := d.1, state := d.2, clientHealth := ch1,
          refreshCount := rc }

/-! ### Concrete fixtures used by witnesses and counterexamples -/

/-- The default configuration values of `config.ts`. -/
def cfg0 : PluginConfig :=
  { ollamaHost := "http://localhost:11434"
    primaryModel := "deepseek-coder-v2:16b"
    sidecarModel := "qwen2.5-coder:7b"
    fallbackModel := none
    keepAliveMinutes := 30
    gpuMemoryThreshold := 85 / 100
    healthCheckIntervalSec := 30
    preloadOnStart := true
    autoRoute := true
    dashboardEnabled := true }

/-- An environment with clock 0 and failing backend calls. -/
def envFresh : SelectEnv :=
  { now := 0
    resp := { versionResp := none, tagsResp := none, psResp := none }
    gpuUtil := none
    vram := none }

/-- An environment far in the future (so a health check at 0 is stale),
with succeeding backend calls. -/
def envStale : SelectEnv :=
  { now := 1000000
    resp :=
      { versionResp := some "0.5.4"
        tagsResp := some (some [])
        psResp := some (some []) }
    gpuUtil := none
    vram := none }

/-- A context carrying only a forced model. -/
def ctxForced : Option SelectContext :=
  some { messageLength := none, conversationDepth := none,
         forceModel := some "x" }

/-- Reachable state, both models pulled but not loaded, no VRAM reading,
health check at clock 0. -/
def sBothPulled : RouterState :=
  { initialState cfg0 with
    ollamaReachable := true
    primaryStatus := { initialModelStatus cfg0.primaryModel with pulled := true }
    sidecarStatus := { initialModelStatus cfg0.sidecarModel with pulled := true } }

/-- State with a VRAM reading at 90 percent of capacity. -/
def sOverloaded : RouterState :=
  { initialState cfg0 with vramUsage := some { usedMB := 90, totalMB := 100 } }

/-- Unreachable state that still carries GPU readings. -/
def sFallbackVram : RouterState :=
  { initialState cfg0 with
    gpuUtilization := some 50
    vramUsage := some { usedMB := 100, totalMB := 200 } }

/-! ### Helper lemmas -/

/-- The `refreshHealth` only rewrites health and probe fields: counters and the
last decision are untouched, and the check timestamp becomes the clock
reading. -/
lemma refreshHealth_state_fields (cfg : PluginConfig) (resp : BackendResponses)
    (gpuUtil : Option ℚ) (vram : Option VramUsage) (now : Nat)
    (ch : OllamaHealth) (s : RouterState) :
    let q := (refreshHealth cfg resp gpuUtil vram now ch s).2
    q.decisionsCount = s.decisionsCount ∧
      q.primarySelections = s.primarySelections ∧
      q.sidecarSelections = s.sidecarSelections ∧
      q.fallbackSelections = s.fallbackSelections ∧
      q.lastDecision = s.lastDecision ∧
      q.lastHealthCheck = now :=
  ⟨rfl, rfl, rfl, rfl, rfl, rfl⟩

/-! ### C4 -/

/-- C4: when any of the three backend calls of `checkHealth` fails, the
cached snapshot is replaced by one that is unreachable, keeps the previous
pulled catalog unchanged, zeroes the running catalog and updates the check
time; the call returns that snapshot. -/
theorem checkHealth_failure_degrades (resp : BackendResponses) (now : Nat)
    (h : OllamaHealth)
    (hfail : resp.versionResp = none ∨ resp.tagsResp = none ∨
      resp.psResp = none) :
    checkHealth resp now h =
      { reachable := false
        version := none
        pulledModels := h.pulledModels
        runningModels := []
        lastChecked := now } := by
  obtain ⟨v, t, p⟩ := resp
  unfold checkHealth
  rcases hfail with hv | ht | hp <;> simp_all

/-- Witness for C4 at a concrete failing response. -/
theorem checkHealth_failure_degrades_witness :
    checkHealth { versionResp := none, tagsResp := some (some []),
                  psResp := some (some []) } 5 initialHealth =
      { reachable := false
        version := none
        pulledModels := []
        runningModels := []
        lastChecked := 5 } :=
  checkHealth_failure_degrades _ 5 initialHealth (Or.inl rfl)

/-! ### C6 -/

/-- C6: with no VRAM reading the overload predicate is false regardless of
the utilization percentage and the threshold; with a reading it holds
exactly when used over total reaches the configured threshold. -/
theorem isGpuOverloaded_fail_open (cfg : PluginConfig) (s : RouterState) :
    (s.vramUsage = none → isGpuOverloaded cfg s = false) ∧
    (∀ v, s.vramUsage = some v →
      (isGpuOverloaded cfg s = true ↔
        (v.usedMB : ℚ) / (v.totalMB : ℚ) ≥ cfg.gpuMemoryThreshold)) := by
  constructor
  · intro h
    simp [isGpuOverloaded, h]
  · intro v h
    simp [isGpuOverloaded, h]

/-- Witness for C6: no reading gives false; a 90 percent reading against
the default 85 percent threshold gives true. -/
theorem isGpuOverloaded_fail_open_witness :
    isGpuOverloaded cfg0 (initialState cfg0) = false ∧
    isGpuOverloaded cfg0 sOverloaded = true := by
  constructor
  · exact (isGpuOverloaded_fail_open cfg0 (initialState cfg0)).1 rfl
  · exact ((isGpuOverloaded_fail_open cfg0 sOverloaded).2
      { usedMB := 90, totalMB := 100 } rfl).mpr (by norm_num [cfg0])

/-! ### C3 -/

/-- C3: whatever the engine state (unreachable and arbitrarily stale
included), a call with a truthy `forceModel` returns that string verbatim
with source primary, runs no `refreshHealth` and leaves the client snapshot
untouched. -/
theorem selectModel_forced_bypass (cfg : PluginConfig) (ch : OllamaHealth)
    (s : RouterState) (env : SelectEnv) (context : Option SelectContext)
    (f : String) (hf : forcedModel context = some f) :
    (selectModel cfg ch s env context).decision.model = f ∧
    (selectModel cfg ch s env context).decision.source = Source.primary ∧
    (selectModel cfg ch s env context).refreshCount = 0 ∧
    (selectModel cfg ch s env context).clientHealth = ch := by
  unfold selectModel
  rw [hf]
  exact ⟨rfl, rfl, rfl, rfl⟩

/-- Witness for C3: forcing model x on the freshly constructed, unreachable
and maximally stale engine. -/
theorem selectModel_forced_bypass_witness :
    (selectModel cfg0 initialHealth (initialState cfg0) envStale
      ctxForced).decision.model = "x" ∧
    (selectModel cfg0 initialHealth (initialState cfg0) envStale
      ctxForced).decision.source = Source.primary ∧
    (selectModel cfg0 initialHealth (initialState cfg0) envStale
      ctxForced).refreshCount = 0 ∧
    (selectModel cfg0 initialHealth (initialState cfg0) envStale
      ctxForced).clientHealth = initialHealth :=
  selectModel_forced_bypass cfg0 initialHealth (initialState cfg0) envStale
    ctxForced "x" (by decide)

/-! ### More helper lemmas on the non-forced path -/

/-- The `afterStaleness` unfolded on its two cases. -/
lemma afterStaleness_spec (cfg : PluginConfig) (env : SelectEnv)
    (ch : OllamaHealth) (s : RouterState) :
    afterStaleness cfg env ch s =
      if staleNeeded cfg s env.now then
        (checkHealth env.resp env.now ch,
          (refreshHealth cfg env.resp env.gpuUtil env.vram env.now ch s).2,
          1)
      else (ch, s, 0) := by
  unfold afterStaleness
  split <;> rfl

/-- Refresh count of a non-forced call. -/
lemma selectModel_nonforced_refreshCount (cfg : PluginConfig)
    (ch : OllamaHealth) (s : RouterState) (env : SelectEnv)
    (context : Option SelectContext) (hnf : forcedModel context = none) :
    (selectModel cfg ch s env context).refreshCount =
      (afterStaleness cfg env ch s).2.2 := by
  cases hb : (afterStaleness cfg env ch s).2.1.ollamaReachable <;>
    simp [selectModel, hnf, hb]

/-- Client snapshot returned by a non-forced call. -/
lemma selectModel_nonforced_clientHealth (cfg : PluginConfig)
    (ch : OllamaHealth) (s : RouterState) (env : SelectEnv)
    (context : Option SelectContext) (hnf : forcedModel context = none) :
    (selectModel cfg ch s env context).clientHealth =
      (afterStaleness cfg env ch s).1 := by
  cases hb : (afterStaleness cfg env ch s).2.1.ollamaReachable <;>
    simp [selectModel, hnf, hb]

/-- Decision and state of a non-forced call, as the reachability split over
the post-staleness state. -/
lemma selectModel_nonforced_pair (cfg : PluginConfig) (ch : OllamaHealth)
    (s : RouterState) (env : SelectEnv) (context : Option SelectContext)
    (hnf : forcedModel context = none) :
    ((selectModel cfg ch s env context).decision,
      (selectModel cfg ch s env context).state) =
      (if (afterStaleness cfg env ch s).2.1.ollamaReachable = false then
        decideFallback cfg (afterStaleness cfg env ch s).2.1
          "Ollama is unreachable" env.now
      else
        decisionCascade cfg (afterStaleness cfg env ch s).2.1 context
          env.now) := by
  cases hb : (afterStaleness cfg env ch s).2.1.ollamaReachable <;>
    simp [selectModel, hnf, hb]

/-- Every cascade branch leaves the health and probe fields of the state
untouched. -/
lemma decisionCascade_preserves_health (cfg : PluginConfig)
    (s : RouterState) (context : Option SelectContext) (now : Nat) :
    (decisionCascade cfg s context now).2.lastHealthCheck =
        s.lastHealthCheck ∧
      (decisionCascade cfg s context now).2.ollamaReachable =
        s.ollamaReachable ∧
      (decisionCascade cfg s context now).2.gpuUtilization =
        s.gpuUtilization ∧
      (decisionCascade cfg s context now).2.vramUsage = s.vramUsage := by
  simp only [decisionCascade]
  split_ifs <;> exact ⟨rfl, rfl, rfl, rfl⟩

/-! ### C5 -/

/-- C5: a non-forced call refreshes exactly once when the last health check
is older than twice the configured interval and not at all otherwise; a
triggered refresh lands before the decision (the resulting state carries
the new check time and the refreshed client snapshot). -/
theorem selectModel_staleness_refresh (cfg : PluginConfig)
    (ch : OllamaHealth) (s : RouterState) (env : SelectEnv)
    (context : Option SelectContext) (hnf : forcedModel context = none) :
    (selectModel cfg ch s env context).refreshCount =
      (if staleNeeded cfg s env.now then 1 else 0) ∧
    (staleNeeded cfg s env.now = true →
      (selectModel cfg ch s env context).state.lastHealthCheck = env.now ∧
      (selectModel cfg ch s env context).clientHealth =
        checkHealth env.resp env.now ch) := by
  constructor
  · rw [selectModel_nonforced_refreshCount cfg ch s env context hnf,
      afterStaleness_spec]
    by_cases hst : staleNeeded cfg s env.now <;> simp [hst]
  · intro hst
    have hstate :
        (selectModel cfg ch s env context).state =
          (if (afterStaleness cfg env ch s).2.1.ollamaReachable = false then
            decideFallback cfg (afterStaleness cfg env ch s).2.1
              "Ollama is unreachable" env.now
          else
            decisionCascade cfg (afterStaleness cfg env ch s).2.1 context
              env.now).2 :=
      congrArg Prod.snd (selectModel_nonforced_pair cfg ch s env context hnf)
    have hs1 :
        (afterStaleness cfg env ch s).2.1 =
          (refreshHealth cfg env.resp env.gpuUtil env.vram env.now ch s).2 := by
      rw [afterStaleness_spec, hst]
      simp
    constructor
    · rw [hstate]
      by_cases hr :
          (afterStaleness cfg env ch s).2.1.ollamaReachable = false
      · rw [if_pos hr]
        show (afterStaleness cfg env ch s).2.1.lastHealthCheck = env.now
        rw [hs1]
        rfl
      · rw [if_neg hr,
          (decisionCascade_preserves_health cfg
            (afterStaleness cfg env ch s).2.1 context env.now).1, hs1]
        rfl
    · rw [selectModel_nonforced_clientHealth cfg ch s env context hnf,
        afterStaleness_spec, hst]
      simp

/-- Witness for C5: a stale state refreshes once; a fresh state does not. -/
theorem selectModel_staleness_refresh_witness :
    (selectModel cfg0 initialHealth (initialState cfg0) envStale
      none).refreshCount = 1 ∧
    (selectModel cfg0 initialHealth sBothPulled envFresh
      none).refreshCount = 0 := by
  constructor
  · have h := (selectModel_staleness_refresh cfg0 initialHealth
      (initialState cfg0) envStale none rfl).1
    rw [h]
    decide
  · have h := (selectModel_staleness_refresh cfg0 initialHealth
      sBothPulled envFresh none rfl).1
    rw [h]
    decide

/-! ### C1: the seven-branch policy order -/

/-- Names for the seven policy branches of step 6, in source order. -/
inductive PolicyBranch where
  | a
  | b
  | c
  | d
  | e
  | f
  | g
deriving Repr, DecidableEq, Fintype

/-- Position of a branch in the cascade. -/
def PolicyBranch.idx : PolicyBranch → Nat
  | PolicyBranch.a => 0
  | PolicyBranch.b => 1
  | PolicyBranch.c => 2
  | PolicyBranch.d => 3
  | PolicyBranch.e => 4
  | PolicyBranch.f => 5
  | PolicyBranch.g => 6

/-- The guard condition of each branch, read off the source cascade. -/
def branchGuard (cfg : PluginConfig) (s : RouterState)
    (context : Option SelectContext) : PolicyBranch → Bool
  | PolicyBranch.a =>
      s.primaryStatus.pulled && s.primaryStatus.loaded &&
        !isGpuOverloaded cfg s
  | PolicyBranch.b =>
      s.primaryStatus.pulled && !isGpuOverloaded cfg s &&
        !isSimpleRequest context
  | PolicyBranch.c =>
      s.sidecarStatus.pulled &&
        (isGpuOverloaded cfg s || isSimpleRequest context)
  | PolicyBranch.d => s.sidecarStatus.pulled && s.sidecarStatus.loaded
  | PolicyBranch.e => s.primaryStatus.pulled
  | PolicyBranch.f => s.sidecarStatus.pulled
  | PolicyBranch.g => true

/-- A branch fires when its guard holds and every earlier guard fails. -/
def branchFires (cfg : PluginConfig) (s : RouterState)
    (context : Option SelectContext) (b : PolicyBranch) : Prop :=
  branchGuard cfg s context b = true ∧
    ∀ b2 : PolicyBranch, b2.idx < b.idx →
      branchGuard cfg s context b2 = false

/-- First branch whose guard holds, in source order. -/
def firstBranch (cfg : PluginConfig) (s : RouterState)
    (context : Option SelectContext) : PolicyBranch :=
  if branchGuard cfg s context PolicyBranch.a then PolicyBranch.a
  else if branchGuard cfg s context PolicyBranch.b then PolicyBranch.b
  else if branchGuard cfg s context PolicyBranch.c then PolicyBranch.c
  else if branchGuard cfg s context PolicyBranch.d then PolicyBranch.d
  else if branchGuard cfg s context PolicyBranch.e then PolicyBranch.e
  else if branchGuard cfg s context PolicyBranch.f then PolicyBranch.f
  else PolicyBranch.g

/-- Decision source produced by each branch. -/
def branchSource : PolicyBranch → Source
  | PolicyBranch.a => Source.primary
  | PolicyBranch.b => Source.primary
  | PolicyBranch.c => Source.sidecar
  | PolicyBranch.d => Source.sidecar
  | PolicyBranch.e => Source.primary
  | PolicyBranch.f => Source.sidecar
  | PolicyBranch.g => Source.fallback

/-- Reason string produced by each branch. -/
def branchReason (cfg : PluginConfig) (s : RouterState) :
    PolicyBranch → String
  | PolicyBranch.a => "Primary model loaded and GPU has capacity"
  | PolicyBranch.b => "Primary model available, loading for complex request"
  | PolicyBranch.c => sidecarBranchReason cfg s
  | PolicyBranch.d => "Sidecar already loaded - fast response path"
  | PolicyBranch.e => "Primary model available with partial GPU offload"
  | PolicyBranch.f => "Only sidecar model available"
  | PolicyBranch.g => "No local models available"

/-- The branch position determines the branch. -/
lemma PolicyBranch.idx_inj :
    ∀ b1 b2 : PolicyBranch, b1.idx = b2.idx → b1 = b2 := by
  decide

/-- At most one branch fires. -/
lemma branchFires_unique (cfg : PluginConfig) (s : RouterState)
    (context : Option SelectContext) (b1 b2 : PolicyBranch)
    (h1 : branchFires cfg s context b1)
    (h2 : branchFires cfg s context b2) : b1 = b2 := by
  rcases Nat.lt_trichotomy b1.idx b2.idx with h | h | h
  · have hfalse := h2.2 b1 h
    rw [h1.1] at hfalse
    exact Bool.noConfusion hfalse
  · exact PolicyBranch.idx_inj b1 b2 h
  · have hfalse := h1.2 b2 h
    rw [h2.1] at hfalse
    exact Bool.noConfusion hfalse

/-- The first branch in source order fires. -/
lemma firstBranch_fires (cfg : PluginConfig) (s : RouterState)
    (context : Option SelectContext) :
    branchFires cfg s context (firstBranch cfg s context) := by
  unfold firstBranch
  split_ifs with h1 h2 h3 h4 h5 h6 <;>
    refine ⟨by first | assumption | rfl, ?_⟩ <;>
    (intro b2 hb2; cases b2 <;> simp_all [PolicyBranch.idx])

/-- The cascade returns the source and reason of the first firing branch. -/
lemma decisionCascade_eq_branch (cfg : PluginConfig) (s : RouterState)
    (context : Option SelectContext) (now : Nat) :
    (decisionCascade cfg s context now).1.source =
        branchSource (firstBranch cfg s context) ∧
      (decisionCascade cfg s context now).1.reason =
        branchReason cfg s (firstBranch cfg s context) := by
  simp only [decisionCascade, firstBranch, branchGuard]
  split_ifs <;> exact ⟨rfl, rfl⟩

/-- C1: on any router state and hint combination, exactly one of the seven
policy branches fires (its guard holds and every earlier guard fails), the
first matching branch in source order is the one that fires, and the
cascade decision carries exactly that source and reason of that branch. -/
theorem decisionCascade_branch_ordering (cfg : PluginConfig)
    (s : RouterState) (context : Option SelectContext) (now : Nat) :
    (∃! b, branchFires cfg s context b) ∧
    branchFires cfg s context (firstBranch cfg s context) ∧
    (decisionCascade cfg s context now).1.source =
      branchSource (firstBranch cfg s context) ∧
    (decisionCascade cfg s context now).1.reason =
      branchReason cfg s (firstBranch cfg s context) :=
  ⟨⟨firstBranch cfg s context, firstBranch_fires cfg s context,
      fun y hy =>
        branchFires_unique cfg s context y (firstBranch cfg s context) hy
          (firstBranch_fires cfg s context)⟩,
    firstBranch_fires cfg s context,
    (decisionCascade_eq_branch cfg s context now).1,
    (decisionCascade_eq_branch cfg s context now).2⟩

/-! ### Counter bookkeeping (C2, C7) -/

/-- The selection counter matching a decision source. -/
def selCount (s : RouterState) : Source → Nat
  | Source.primary => s.primarySelections
  | Source.sidecar => s.sidecarSelections
  | Source.fallback => s.fallbackSelections

/-- All four counters agree between two states. -/
def countersEq (s1 s2 : RouterState) : Prop :=
  s1.decisionsCount = s2.decisionsCount ∧
    s1.primarySelections = s2.primarySelections ∧
    s1.sidecarSelections = s2.sidecarSelections ∧
    s1.fallbackSelections = s2.fallbackSelections

lemma selCount_congr {s1 s2 : RouterState} (h : countersEq s1 s2) :
    ∀ src, selCount s1 src = selCount s2 src := by
  intro src
  cases src
  · exact h.2.1
  · exact h.2.2.1
  · exact h.2.2.2

/-- Counter effect of `decidePrimary`. -/
lemma decidePrimary_selCount (cfg : PluginConfig) (s : RouterState)
    (reason : String) (now : Nat) :
    (decidePrimary cfg s reason now).2.decisionsCount =
        s.decisionsCount + 1 ∧
      selCount (decidePrimary cfg s reason now).2
          (decidePrimary cfg s reason now).1.source =
        selCount s (decidePrimary cfg s reason now).1.source + 1 ∧
      (∀ src, src ≠ (decidePrimary cfg s reason now).1.source →
        selCount (decidePrimary cfg s reason now).2 src = selCount s src) ∧
      (decidePrimary cfg s reason now).2.lastDecision =
        some (decidePrimary cfg s reason now).1 := by
  refine ⟨rfl, rfl, ?_, rfl⟩
  intro src h
  cases src
  · exact absurd rfl h
  · rfl
  · rfl

/-- Counter effect of `decideSidecar`. -/
lemma decideSidecar_selCount (cfg : PluginConfig) (s : RouterState)
    (reason : String) (now : Nat) :
    (decideSidecar cfg s reason now).2.decisionsCount =
        s.decisionsCount + 1 ∧
      selCount (decideSidecar cfg s reason now).2
          (decideSidecar cfg s reason now).1.source =
        selCount s (decideSidecar cfg s reason now).1.source + 1 ∧
      (∀ src, src ≠ (decideSidecar cfg s reason now).1.source →
        selCount (decideSidecar cfg s reason now).2 src = selCount s src) ∧
      (decideSidecar cfg s reason now).2.lastDecision =
        some (decideSidecar cfg s reason now).1 := by
  refine ⟨rfl, rfl, ?_, rfl⟩
  intro src h
  cases src
  · rfl
  · exact absurd rfl h
  · rfl

/-- Counter effect of `decideFallback`. -/
lemma decideFallback_selCount (cfg : PluginConfig) (s : RouterState)
    (reason : String) (now : Nat) :
    (decideFallback cfg s reason now).2.decisionsCount =
        s.decisionsCount + 1 ∧
      selCount (decideFallback cfg s reason now).2
          (decideFallback cfg s reason now).1.source =
        selCount s (decideFallback cfg s reason now).1.source + 1 ∧
      (∀ src, src ≠ (decideFallback cfg s reason now).1.source →
        selCount (decideFallback cfg s reason now).2 src = selCount s src) ∧
      (decideFallback cfg s reason now).2.lastDecision =
        some (decideFallback cfg s reason now).1 := by
  refine ⟨rfl, rfl, ?_, rfl⟩
  intro src h
  cases src
  · rfl
  · rfl
  · exact absurd rfl h

/-- The cascade always lands in one of the three decide helpers, applied to
the same state. -/
lemma decisionCascade_shape (cfg : PluginConfig) (s : RouterState)
    (context : Option SelectContext) (now : Nat) :
    (∃ reason, decisionCascade cfg s context now =
        decidePrimary cfg s reason now) ∨
      (∃ reason, decisionCascade cfg s context now =
        decideSidecar cfg s reason now) ∨
      decisionCascade cfg s context now =
        decideFallback cfg s "No local models available" now := by
  simp only [decisionCascade]
  split_ifs
  · exact Or.inl ⟨_, rfl⟩
  · exact Or.inl ⟨_, rfl⟩
  · exact Or.inr (Or.inl ⟨_, rfl⟩)
  · exact Or.inr (Or.inl ⟨_, rfl⟩)
  · exact Or.inl ⟨_, rfl⟩
  · exact Or.inr (Or.inl ⟨_, rfl⟩)
  · exact Or.inr (Or.inr rfl)

/-- The staleness step keeps all four counters. -/
lemma afterStaleness_counters (cfg : PluginConfig) (env : SelectEnv)
    (ch : OllamaHealth) (s : RouterState) :
    countersEq (afterStaleness cfg env ch s).2.1 s := by
  rw [afterStaleness_spec]
  by_cases hst : staleNeeded cfg s env.now
  · rw [if_pos hst]
    exact ⟨rfl, rfl, rfl, rfl⟩
  · rw [if_neg hst]
    exact ⟨rfl, rfl, rfl, rfl⟩

/-- Full counter account of one `selectModel` call: `lastDecision` is
always overwritten; a forced call keeps all four counters; a non-forced
call bumps the total and exactly the counter matching the decision source. -/
lemma selectModel_counter_spec (cfg : PluginConfig) (ch : OllamaHealth)
    (s : RouterState) (env : SelectEnv) (context : Option SelectContext) :
    (selectModel cfg ch s env context).state.lastDecision =
      some (selectModel cfg ch s env context).decision ∧
    (forcedModel context ≠ none →
      countersEq (selectModel cfg ch s env context).state s) ∧
    (forcedModel context = none →
      (selectModel cfg ch s env context).state.decisionsCount =
          s.decisionsCount + 1 ∧
        selCount (selectModel cfg ch s env context).state
            (selectModel cfg ch s env context).decision.source =
          selCount s (selectModel cfg ch s env context).decision.source
            + 1 ∧
        ∀ src, src ≠ (selectModel cfg ch s env context).decision.source →
          selCount (selectModel cfg ch s env context).state src =
            selCount s src) := by
  cases hfm : forcedModel context with
  | some f =>
      unfold selectModel
      rw [hfm]
      exact ⟨rfl, fun _ => ⟨rfl, rfl, rfl, rfl⟩,
        fun h => Option.noConfusion h⟩
  | none =>
      have hcnt := afterStaleness_counters cfg env ch s
      have hpair := selectModel_nonforced_pair cfg ch s env context hfm
      have hdec :
          (selectModel cfg ch s env context).decision =
            (if (afterStaleness cfg env ch s).2.1.ollamaReachable = false
              then decideFallback cfg (afterStaleness cfg env ch s).2.1
                "Ollama is unreachable" env.now
              else decisionCascade cfg (afterStaleness cfg env ch s).2.1
                context env.now).1 :=
        congrArg Prod.fst hpair
      have hstate :
          (selectModel cfg ch s env context).state =
            (if (afterStaleness cfg env ch s).2.1.ollamaReachable = false
              then decideFallback cfg (afterStaleness cfg env ch s).2.1
                "Ollama is unreachable" env.now
              else decisionCascade cfg (afterStaleness cfg env ch s).2.1
                context env.now).2 :=
        congrArg Prod.snd hpair
      have key :
          ∀ d : RouteDecision × RouterState,
            d.2.decisionsCount =
                (afterStaleness cfg env ch s).2.1.decisionsCount + 1 →
            selCount d.2 d.1.source =
                selCount (afterStaleness cfg env ch s).2.1 d.1.source + 1 →
            (∀ src, src ≠ d.1.source →
              selCount d.2 src =
                selCount (afterStaleness cfg env ch s).2.1 src) →
            d.2.lastDecision = some d.1 →
            d.2.lastDecision = some d.1 ∧
              ((none : Option String) ≠ none → countersEq d.2 s) ∧
              ((none : Option String) = none →
                d.2.decisionsCount = s.decisionsCount + 1 ∧
                  selCount d.2 d.1.source = selCount s d.1.source + 1 ∧
                  ∀ src, src ≠ d.1.source →
                    selCount d.2 src = selCount s src) := by
        intro d h1 h2 h3 h4
        refine ⟨h4, fun hne => absurd rfl hne, fun _ => ⟨?_, ?_, ?_⟩⟩
        · rw [h1, hcnt.1]
        · rw [h2, selCount_congr hcnt]
        · intro src hsrc
          rw [h3 src hsrc, selCount_congr hcnt]
      rw [hdec, hstate]
      by_cases hr : (afterStaleness cfg env ch s).2.1.ollamaReachable = false
      · rw [if_pos hr]
        obtain ⟨h1, h2, h3, h4⟩ := decideFallback_selCount cfg
          (afterStaleness cfg env ch s).2.1 "Ollama is unreachable" env.now
        exact key _ h1 h2 h3 h4
      · rw [if_neg hr]
        rcases decisionCascade_shape cfg (afterStaleness cfg env ch s).2.1
            context env.now with ⟨r, hc⟩ | ⟨r, hc⟩ | hc <;> rw [hc]
        · obtain ⟨h1, h2, h3, h4⟩ := decidePrimary_selCount cfg
            (afterStaleness cfg env ch s).2.1 r env.now
          exact key _ h1 h2 h3 h4
        · obtain ⟨h1, h2, h3, h4⟩ := decideSidecar_selCount cfg
            (afterStaleness cfg env ch s).2.1 r env.now
          exact key _ h1 h2 h3 h4
        · obtain ⟨h1, h2, h3, h4⟩ := decideFallback_selCount cfg
            (afterStaleness cfg env ch s).2.1 "No local models available"
            env.now
          exact key _ h1 h2 h3 h4

/-! ### C2 -/

/-- C2 counterexample: a forced-override call on the fresh engine leaves
`decisionsCount` at 0 instead of incrementing it to 1, and bumps no
selection counter even though the decision is primary-labelled. -/
theorem selectModel_forced_skips_counters :
    (selectModel cfg0 initialHealth (initialState cfg0) envFresh
        ctxForced).state.decisionsCount ≠
      (initialState cfg0).decisionsCount + 1 ∧
    (selectModel cfg0 initialHealth (initialState cfg0) envFresh
        ctxForced).decision.source = Source.primary ∧
    (selectModel cfg0 initialHealth (initialState cfg0) envFresh
        ctxForced).state.primarySelections =
      (initialState cfg0).primarySelections := by
  decide

/-- C2 amended: every selectModel call overwrites `lastDecision` with the
new decision; a non-forced call increments `decisionsCount` by exactly one
and exactly the selection counter matching the decision source; a
forced-override call leaves all four counters unchanged. -/
theorem selectModel_counter_discipline (cfg : PluginConfig)
    (ch : OllamaHealth) (s : RouterState) (env : SelectEnv)
    (context : Option SelectContext) :
    (selectModel cfg ch s env context).state.lastDecision =
      some (selectModel cfg ch s env context).decision ∧
    (forcedModel context ≠ none →
      countersEq (selectModel cfg ch s env context).state s) ∧
    (forcedModel context = none →
      (selectModel cfg ch s env context).state.decisionsCount =
          s.decisionsCount + 1 ∧
        selCount (selectModel cfg ch s env context).state
            (selectModel cfg ch s env context).decision.source =
          selCount s (selectModel cfg ch s env context).decision.source
            + 1 ∧
        ∀ src, src ≠ (selectModel cfg ch s env context).decision.source →
          selCount (selectModel cfg ch s env context).state src =
            selCount s src) :=
  selectModel_counter_spec cfg ch s env context

/-- Witness for C2 amended: a forced call keeps the counters; a non-forced
call bumps the total by one. -/
theorem selectModel_counter_discipline_witness :
    countersEq
      (selectModel cfg0 initialHealth (initialState cfg0) envFresh
        ctxForced).state (initialState cfg0) ∧
    (selectModel cfg0 initialHealth sBothPulled envFresh
        none).state.decisionsCount = sBothPulled.decisionsCount + 1 :=
  ⟨(selectModel_counter_discipline cfg0 initialHealth (initialState cfg0)
      envFresh ctxForced).2.1 (by decide),
    ((selectModel_counter_discipline cfg0 initialHealth sBothPulled
      envFresh none).2.2 rfl).1⟩

/-! ### C7: counter invariant over operation sequences -/

/-- One externally observable engine operation. -/
inductive RouterOp where
  | select (env : SelectEnv) (context : Option SelectContext)
  | refresh (resp : BackendResponses) (gpuUtil : Option ℚ)
      (vram : Option VramUsage) (now : Nat)

/-- Apply one operation to the client snapshot and router state pair. -/
def applyOp (cfg : PluginConfig) (p : OllamaHealth × RouterState)
    (op : RouterOp) : OllamaHealth × RouterState :=
  match op with
  | RouterOp.select env context =>
      ((selectModel cfg p.1 p.2 env context).clientHealth,
        (selectModel cfg p.1 p.2 env context).state)
  | RouterOp.refresh resp gpuUtil vram now =>
      refreshHealth cfg resp gpuUtil vram now p.1 p.2

/-- Run a sequence of operations from the freshly constructed engine. -/
def runOps (cfg : PluginConfig) (ops : List RouterOp) :
    OllamaHealth × RouterState :=
  ops.foldl (applyOp cfg) (initialHealth, initialState cfg)

/-- The counter equation of P4. -/
def counterInv (s : RouterState) : Prop :=
  s.decisionsCount =
    s.primarySelections + s.sidecarSelections + s.fallbackSelections

/-- One operation preserves the counter equation and never decreases any
counter. -/
lemma applyOp_counters (cfg : PluginConfig)
    (p : OllamaHealth × RouterState) (op : RouterOp) :
    (counterInv p.2 → counterInv (applyOp cfg p op).2) ∧
      p.2.decisionsCount ≤ (applyOp cfg p op).2.decisionsCount ∧
      p.2.primarySelections ≤ (applyOp cfg p op).2.primarySelections ∧
      p.2.sidecarSelections ≤ (applyOp cfg p op).2.sidecarSelections ∧
      p.2.fallbackSelections ≤ (applyOp cfg p op).2.fallbackSelections := by
  cases op with
  | refresh resp gpuUtil vram now =>
      obtain ⟨h1, h2, h3, h4, _, _⟩ :=
        refreshHealth_state_fields cfg resp gpuUtil vram now p.1 p.2
      refine ⟨fun hi => ?_, le_of_eq h1.symm, le_of_eq h2.symm,
        le_of_eq h3.symm, le_of_eq h4.symm⟩
      show counterInv (refreshHealth cfg resp gpuUtil vram now p.1 p.2).2
      unfold counterInv at hi ⊢
      rw [h1, h2, h3, h4]
      exact hi
  | select env context =>
      have spec := selectModel_counter_spec cfg p.1 p.2 env context
      simp only [applyOp]
      by_cases hfm : forcedModel context = none
      · obtain ⟨hd, hsel, hoth⟩ := spec.2.2 hfm
        cases hsrc : (selectModel cfg p.1 p.2 env context).decision.source
          with
        | primary =>
            rw [hsrc] at hsel
            have hp :
                (selectModel cfg p.1 p.2 env
                    context).state.primarySelections =
                  p.2.primarySelections + 1 := hsel
            have hs :
                (selectModel cfg p.1 p.2 env
                    context).state.sidecarSelections =
                  p.2.sidecarSelections :=
              hoth Source.sidecar (by rw [hsrc]; decide)
            have hf :
                (selectModel cfg p.1 p.2 env
                    context).state.fallbackSelections =
                  p.2.fallbackSelections :=
              hoth Source.fallback (by rw [hsrc]; decide)
            refine ⟨fun hi => ?_, ?_, ?_, ?_, ?_⟩ <;>
              · unfold counterInv at *
                omega
        | sidecar =>
            rw [hsrc] at hsel
            have hp :
                (selectModel cfg p.1 p.2 env
                    context).state.sidecarSelections =
                  p.2.sidecarSelections + 1 := hsel
            have hs :
                (selectModel cfg p.1 p.2 env
                    context).state.primarySelections =
                  p.2.primarySelections :=
              hoth Source.primary (by rw [hsrc]; decide)
            have hf :
                (selectModel cfg p.1 p.2 env
                    context).state.fallbackSelections =
                  p.2.fallbackSelections :=
              hoth Source.fallback (by rw [hsrc]; decide)
            refine ⟨fun hi => ?_, ?_, ?_, ?_, ?_⟩ <;>
              · unfold counterInv at *
                omega
        | fallback =>
            rw [hsrc] at hsel
            have hp :
                (selectModel cfg p.1 p.2 env
                    context).state.fallbackSelections =
                  p.2.fallbackSelections + 1 := hsel
            have hs :
                (selectModel cfg p.1 p.2 env
                    context).state.primarySelections =
                  p.2.primarySelections :=
              hoth Source.primary (by rw [hsrc]; decide)
            have hf :
                (selectModel cfg p.1 p.2 env
                    context).state.sidecarSelections =
                  p.2.sidecarSelections :=
              hoth Source.sidecar (by rw [hsrc]; decide)
            refine ⟨fun hi => ?_, ?_, ?_, ?_, ?_⟩ <;>
              · unfold counterInv at *
                omega
      · obtain ⟨h1, h2, h3, h4⟩ := spec.2.1 hfm
        refine ⟨fun hi => ?_, le_of_eq h1.symm, le_of_eq h2.symm,
          le_of_eq h3.symm, le_of_eq h4.symm⟩
        unfold counterInv at hi ⊢
        omega

/-- C7: from the freshly constructed engine, after any finite sequence of
`selectModel` calls (arbitrary hints, forced overrides included)
interleaved with `refreshHealth` calls, `decisionsCount` equals the sum of
the three selection counters; and every single operation leaves each of the
four counters no smaller. -/
theorem runOps_counter_invariant (cfg : PluginConfig)
    (ops : List RouterOp) :
    counterInv (runOps cfg ops).2 ∧
      ∀ (p : OllamaHealth × RouterState) (op : RouterOp),
        p.2.decisionsCount ≤ (applyOp cfg p op).2.decisionsCount ∧
          p.2.primarySelections ≤ (applyOp cfg p op).2.primarySelections ∧
          p.2.sidecarSelections ≤ (applyOp cfg p op).2.sidecarSelections ∧
          p.2.fallbackSelections ≤
            (applyOp cfg p op).2.fallbackSelections := by
  constructor
  · have key : ∀ (l : List RouterOp) (p : OllamaHealth × RouterState),
        counterInv p.2 → counterInv (l.foldl (applyOp cfg) p).2 := by
      intro l
      induction l with
      | nil => exact fun p h => h
      | cons op t ih =>
          intro p h
          exact ih _ ((applyOp_counters cfg p op).1 h)
    exact key ops (initialHealth, initialState cfg) rfl
  · exact fun p op => (applyOp_counters cfg p op).2

/-! ### C8 -/

/-- C8 counterexample: a call with no hints object at all is not simple —
on a state where primary and sidecar are pulled and nothing is loaded or
overloaded, `selectModel()` routes to the primary (branch 6b) while
explicit zero hints route to the sidecar (branch 6c). -/
theorem selectModel_absent_context_not_simple :
    isSimpleRequest none = false ∧
    (selectModel cfg0 initialHealth sBothPulled envFresh
        none).decision.source = Source.primary ∧
    (selectModel cfg0 initialHealth sBothPulled envFresh
        (some { messageLength := some 0, conversationDepth := some 0,
                forceModel := none })).decision.source =
      Source.sidecar := by
  refine ⟨rfl, ?_, ?_⟩ <;> decide

/-- C8 amended: a call passing a hints object with both complexity fields
absent is classified simple (the fields default to 0, and 0 < 200 and
0 < 3 hold), exactly as explicit zero hints, and the policy cascade treats
the two contexts identically; a call passing no hints object at all is
classified not simple. -/
theorem isSimpleRequest_default_hints :
    isSimpleRequest none = false ∧
    (∀ f, isSimpleRequest
      (some { messageLength := none, conversationDepth := none,
              forceModel := f }) = true) ∧
    (∀ f, isSimpleRequest
      (some { messageLength := some 0, conversationDepth := some 0,
              forceModel := f }) = true) ∧
    (∀ (cfg : PluginConfig) (s : RouterState) (now : Nat) f g,
      decisionCascade cfg s
          (some { messageLength := none, conversationDepth := none,
                  forceModel := f }) now =
        decisionCascade cfg s
          (some { messageLength := some 0, conversationDepth := some 0,
                  forceModel := g }) now) :=
  ⟨rfl, fun _ => rfl, fun _ => rfl, fun _ _ _ _ _ => rfl⟩

/-! ### Decision field lemmas (C9, C10) -/

lemma decidePrimary_fields (cfg : PluginConfig) (s : RouterState)
    (reason : String) (now : Nat) :
    (decidePrimary cfg s reason now).1.model =
        "ollama/" ++ cfg.primaryModel ∧
      (decidePrimary cfg s reason now).1.source = Source.primary ∧
      (decidePrimary cfg s reason now).1.gpuUtilization =
        s.gpuUtilization ∧
      (decidePrimary cfg s reason now).1.vramUsedMB =
        s.vramUsage.map VramUsage.usedMB ∧
      (decidePrimary cfg s reason now).1.vramTotalMB =
        s.vramUsage.map VramUsage.totalMB :=
  ⟨rfl, rfl, rfl, rfl, rfl⟩

lemma decideSidecar_fields (cfg : PluginConfig) (s : RouterState)
    (reason : String) (now : Nat) :
    (decideSidecar cfg s reason now).1.model =
        "ollama/" ++ cfg.sidecarModel ∧
      (decideSidecar cfg s reason now).1.source = Source.sidecar ∧
      (decideSidecar cfg s reason now).1.gpuUtilization =
        s.gpuUtilization ∧
      (decideSidecar cfg s reason now).1.vramUsedMB =
        s.vramUsage.map VramUsage.usedMB ∧
      (decideSidecar cfg s reason now).1.vramTotalMB =
        s.vramUsage.map VramUsage.totalMB :=
  ⟨rfl, rfl, rfl, rfl, rfl⟩

lemma decideFallback_fields (cfg : PluginConfig) (s : RouterState)
    (reason : String) (now : Nat) :
    (decideFallback cfg s reason now).1.model =
        cfg.fallbackModel.getD "anthropic/claude-sonnet-4-5" ∧
      (decideFallback cfg s reason now).1.source = Source.fallback ∧
      (decideFallback cfg s reason now).1.gpuUtilization =
        s.gpuUtilization ∧
      (decideFallback cfg s reason now).1.vramUsedMB = none ∧
      (decideFallback cfg s reason now).1.vramTotalMB = none :=
  ⟨rfl, rfl, rfl, rfl, rfl⟩

/-! ### C9 -/

/-- C9 counterexample: with the backend unreachable and a VRAM reading in
the state, the fallback decision carries no VRAM fields at all. -/
theorem decideFallback_drops_vram_reading :
    (selectModel cfg0 initialHealth sFallbackVram envFresh
        none).decision.source = Source.fallback ∧
    sFallbackVram.vramUsage = some { usedMB := 100, totalMB := 200 } ∧
    (selectModel cfg0 initialHealth sFallbackVram envFresh
        none).decision.vramUsedMB = none ∧
    (selectModel cfg0 initialHealth sFallbackVram envFresh
        none).decision.vramTotalMB = none := by
  refine ⟨?_, rfl, ?_, ?_⟩ <;> decide

/-- C9 amended: a forced decision carries none of the GPU fields; a
non-forced decision carries the GPU utilization of the state in effect
after the staleness step, primary and sidecar decisions also carry that
VRAM used/total reading of that state, and a fallback decision carries no VRAM
fields. -/
theorem selectModel_gpu_enrichment (cfg : PluginConfig)
    (ch : OllamaHealth) (s : RouterState) (env : SelectEnv)
    (context : Option SelectContext) :
    (forcedModel context ≠ none →
      (selectModel cfg ch s env context).decision.gpuUtilization = none ∧
      (selectModel cfg ch s env context).decision.vramUsedMB = none ∧
      (selectModel cfg ch s env context).decision.vramTotalMB = none) ∧
    (forcedModel context = none →
      (selectModel cfg ch s env context).decision.gpuUtilization =
        (afterStaleness cfg env ch s).2.1.gpuUtilization ∧
      ((selectModel cfg ch s env context).decision.source ≠
          Source.fallback →
        (selectModel cfg ch s env context).decision.vramUsedMB =
          (afterStaleness cfg env ch s).2.1.vramUsage.map
            VramUsage.usedMB ∧
        (selectModel cfg ch s env context).decision.vramTotalMB =
          (afterStaleness cfg env ch s).2.1.vramUsage.map
            VramUsage.totalMB) ∧
      ((selectModel cfg ch s env context).decision.source =
          Source.fallback →
        (selectModel cfg ch s env context).decision.vramUsedMB = none ∧
        (selectModel cfg ch s env context).decision.vramTotalMB =
          none)) := by
  cases hfm : forcedModel context with
  | some f =>
      unfold selectModel
      rw [hfm]
      exact ⟨fun _ => ⟨rfl, rfl, rfl⟩, fun h => Option.noConfusion h⟩
  | none =>
      have hdec :
          (selectModel cfg ch s env context).decision =
            (if (afterStaleness cfg env ch s).2.1.ollamaReachable = false
              then decideFallback cfg (afterStaleness cfg env ch s).2.1
                "Ollama is unreachable" env.now
              else decisionCascade cfg (afterStaleness cfg env ch s).2.1
                context env.now).1 :=
        congrArg Prod.fst
          (selectModel_nonforced_pair cfg ch s env context hfm)
      refine ⟨fun hne => absurd rfl hne, fun _ => ?_⟩
      rw [hdec]
      by_cases hr : (afterStaleness cfg env ch s).2.1.ollamaReachable = false
      · rw [if_pos hr]
        exact ⟨rfl, fun hne => absurd rfl hne, fun _ => ⟨rfl, rfl⟩⟩
      · rw [if_neg hr]
        rcases decisionCascade_shape cfg (afterStaleness cfg env ch s).2.1
            context env.now with ⟨r, hc⟩ | ⟨r, hc⟩ | hc <;> rw [hc]
        · exact ⟨rfl, fun _ => ⟨rfl, rfl⟩, fun hsrc => Source.noConfusion hsrc⟩
        · exact ⟨rfl, fun _ => ⟨rfl, rfl⟩, fun hsrc => Source.noConfusion hsrc⟩
        · exact ⟨rfl, fun hne => absurd rfl hne, fun _ => ⟨rfl, rfl⟩⟩

/-- Witness for C9 amended: a forced decision drops the GPU fields, a
fallback decision drops the VRAM fields, a primary decision keeps them. -/
theorem selectModel_gpu_enrichment_witness :
    (selectModel cfg0 initialHealth (initialState cfg0) envFresh
        ctxForced).decision.gpuUtilization = none ∧
    (selectModel cfg0 initialHealth sFallbackVram envFresh
        none).decision.vramUsedMB = none ∧
    (selectModel cfg0 initialHealth sBothPulled envFresh
        none).decision.vramUsedMB =
      (afterStaleness cfg0 envFresh initialHealth
          sBothPulled).2.1.vramUsage.map VramUsage.usedMB :=
  ⟨((selectModel_gpu_enrichment cfg0 initialHealth (initialState cfg0)
      envFresh ctxForced).1 (by decide)).1,
    (((selectModel_gpu_enrichment cfg0 initialHealth sFallbackVram
      envFresh none).2 rfl).2.2 (by decide)).1,
    (((selectModel_gpu_enrichment cfg0 initialHealth sBothPulled
      envFresh none).2 rfl).2.1 (by decide)).1⟩

/-! ### C10 -/

/-- Prefixing with ollama/ always changes the string. -/
lemma ollama_prefixed_ne (x : String) : "ollama/" ++ x ≠ x := by
  intro h
  have hlen := congrArg String.length h
  rw [String.length_append] at hlen
  have h7 : ("ollama/" : String).length = 7 := rfl
  rw [h7] at hlen
  omega

/-- C10: non-forced primary and sidecar decisions return the configured
model name prefixed with ollama/; a fallback decision returns the
configured fallbackModel (or the documented default when unset) with no
such prefixing step; a forced decision returns the caller string
unprefixed — and prefixing always yields a different string than the bare
configured name. -/
theorem selectModel_target_strings (cfg : PluginConfig) (ch : OllamaHealth)
    (s : RouterState) (env : SelectEnv) (context : Option SelectContext) :
    (∀ g, forcedModel context = some g →
      (selectModel cfg ch s env context).decision.model = g) ∧
    (forcedModel context = none →
      ((selectModel cfg ch s env context).decision.source =
          Source.primary →
        (selectModel cfg ch s env context).decision.model =
          "ollama/" ++ cfg.primaryModel) ∧
      ((selectModel cfg ch s env context).decision.source =
          Source.sidecar →
        (selectModel cfg ch s env context).decision.model =
          "ollama/" ++ cfg.sidecarModel) ∧
      ((selectModel cfg ch s env context).decision.source =
          Source.fallback →
        (selectModel cfg ch s env context).decision.model =
          cfg.fallbackModel.getD "anthropic/claude-sonnet-4-5")) ∧
    ("ollama/" ++ cfg.primaryModel ≠ cfg.primaryModel) ∧
    ("ollama/" ++ cfg.sidecarModel ≠ cfg.sidecarModel) := by
  refine ⟨?_, ?_, ollama_prefixed_ne cfg.primaryModel,
    ollama_prefixed_ne cfg.sidecarModel⟩
  · intro g hg
    unfold selectModel
    rw [hg]
  · intro hfm
    have hdec :
        (selectModel cfg ch s env context).decision =
          (if (afterStaleness cfg env ch s).2.1.ollamaReachable = false
            then decideFallback cfg (afterStaleness cfg env ch s).2.1
              "Ollama is unreachable" env.now
            else decisionCascade cfg (afterStaleness cfg env ch s).2.1
              context env.now).1 :=
      congrArg Prod.fst
        (selectModel_nonforced_pair cfg ch s env context hfm)
    rw [hdec]
    by_cases hr : (afterStaleness cfg env ch s).2.1.ollamaReachable = false
    · rw [if_pos hr]
      exact ⟨fun hsrc => Source.noConfusion hsrc,
        fun hsrc => Source.noConfusion hsrc, fun _ => rfl⟩
    · rw [if_neg hr]
      rcases decisionCascade_shape cfg (afterStaleness cfg env ch s).2.1
          context env.now with ⟨r, hc⟩ | ⟨r, hc⟩ | hc <;> rw [hc]
      · exact ⟨fun _ => rfl, fun hsrc => Source.noConfusion hsrc,
          fun hsrc => Source.noConfusion hsrc⟩
      · exact ⟨fun hsrc => Source.noConfusion hsrc, fun _ => rfl,
          fun hsrc => Source.noConfusion hsrc⟩
      · exact ⟨fun hsrc => Source.noConfusion hsrc,
          fun hsrc => Source.noConfusion hsrc, fun _ => rfl⟩

/-- Witness for C10: a forced call returns the caller string; a routed
primary decision returns the prefixed configured name. -/
theorem selectModel_target_strings_witness :
    (selectModel cfg0 initialHealth (initialState cfg0) envFresh
        ctxForced).decision.model = "x" ∧
    (selectModel cfg0 initialHealth sBothPulled envFresh
        none).decision.model = "ollama/" ++ cfg0.primaryModel :=
  ⟨(selectModel_target_strings cfg0 initialHealth (initialState cfg0)
      envFresh ctxForced).1 "x" (by decide),
    ((selectModel_target_strings cfg0 initialHealth sBothPulled envFresh
      none).2.1 rfl).1 (by decide)⟩

end MLO
